import Mathlib

/-!
Verification of the sloka_api HTTP read API (src/index.js, models in
src/unnamed/part_003) against its specification.

The embedding models:
* the record store as a `List SRecord` (stable enumeration order, as the
  spec's `findAtOffset` requires);
* mongoose serialized documents as association lists of JSON fields;
* the `$regex`/`$options:'i'` matcher of the store as a small regex engine
  over literal atoms, `.` and `*` (the fragment reachable from the escaped
  patterns the code builds);
* JavaScript numeric query-string parsing (`parseInt`) and falsy defaulting
  (`x || d`) explicitly;
* `Math.random()` as a rational in `[0,1)` and JS `Date` arithmetic as
  millisecond timestamps with a civil-calendar day table.
-/

namespace SlokaApi

/-- JSON field values occurring in serialized quote documents. -/
inductive JVal where
  | s (v : String)
  | n (v : Nat)
deriving DecidableEq, Repr

/-- One stored quote document, mirroring QuoteSchema (src/unnamed/part_003):
`sloka` required; `translation`, `transliteration`, `source` optional;
`timestamps: true` adds `createdAt`/`updatedAt`; mongo adds `_id` and the
version key `__v`. -/
structure SRecord where
  mongoId : String
  version : Nat
  sloka : String
  translation : Option String
  transliteration : Option String
  source : Option String
  createdAt : String
  updatedAt : String
deriving DecidableEq, Repr

/-- A serialized document is a list of (field name, value) pairs. -/
abbrev JDoc := List (String × JVal)

/-- Optional schema field: present in the document only when set. -/
def optField (k : String) (v : Option String) : JDoc :=
  match v with
  | none => []
  | some s => [(k, JVal.s s)]

/-- The full mongo document for a record, every schema field plus `_id`,
timestamps and the version key `__v`. -/
def fullDoc (r : SRecord) : JDoc :=
  [("_id", JVal.s r.mongoId), ("sloka", JVal.s r.sloka)]
    ++ optField "translation" r.translation
    ++ optField "transliteration" r.transliteration
    ++ optField "source" r.source
    ++ [("createdAt", JVal.s r.createdAt), ("updatedAt", JVal.s r.updatedAt),
        ("__v", JVal.n r.version)]

/-- Modelled from mongoose semantics: `.select('-__v').lean()` returns the
plain document with the `__v` projection removed; `.lean()` bypasses the
schema's `toJSON` transform, so no other reshaping happens. -/
def leanSelectNoV (r : SRecord) : JDoc :=
  (fullDoc r).filter fun kv => kv.fst ≠ "__v"

/-- The QuoteSchema `toJSON` transform (src/unnamed/part_003 lines 26-36):
`ret.id = ret._id; delete ret._id; delete ret.__v`. Applied only when a
mongoose Document is serialized via `toJSON`, not to `.lean()` results. -/
def toJSONTransform (doc : JDoc) : JDoc :=
  match doc.lookup "_id" with
  | some v => (doc.filter fun kv => kv.fst ≠ "_id" ∧ kv.fst ≠ "__v") ++ [("id", v)]
  | none => doc.filter fun kv => kv.fst ≠ "__v"

/-! ### Regex escaping and the store's case-insensitive matcher (C1, C7, C10)

src/index.js line 263:
`const sanitizedSource = source.replace(/[.*+?^${}()|[\]\\]/g, '\\$&');` -/

/-- The character class of the sanitizing replace on src/index.js line 263. -/
def regexMetachars : List Char :=
  ['.', '*', '+', '?', '^', '$', '{', '}', '(', ')', '|', '[', ']', '\\']

/-- `source.replace(/[.*+?^${}()|[\]\\]/g, '\\$&')`: each occurrence of a
metacharacter is replaced by a backslash followed by the character itself
(`$&` is the matched character); everything else is kept. -/
def escapeRegexList : List Char → List Char
  | [] => []
  | c :: cs =>
    if c ∈ regexMetachars then '\\' :: c :: escapeRegexList cs
    else c :: escapeRegexList cs

/-- Atom of the modelled regex fragment: a literal character or `.`. -/
inductive RAtom where
  | lit (c : Char)
  | dot
deriving DecidableEq, Repr

/-- Token: an atom matched once, or an atom under a `*` quantifier. -/
inductive RTok where
  | once (a : RAtom)
  | star (a : RAtom)
deriving DecidableEq, Repr

/-- Modelled from the spec: the store's `$regex` pattern language, restricted
to the fragment the escaped patterns (plus `.` and `*`) can reach. `\c`
denotes the literal character `c`; an unescaped metacharacter other than `.`
(or a quantifier with nothing to repeat) is not in the fragment. -/
def parsePat : List Char → Option (List RTok)
  | [] => some []
  | c :: rest =>
    if c = '\\' then
      match rest with
      | [] => none
      | d :: rest2 =>
        if rest2.head? = some '*' then
          (parsePat rest2.tail).map fun ts => RTok.star (RAtom.lit d) :: ts
        else
          (parsePat rest2).map fun ts => RTok.once (RAtom.lit d) :: ts
    else if c ∈ regexMetachars then
      if c = '.' then
        if rest.head? = some '*' then
          (parsePat rest.tail).map fun ts => RTok.star RAtom.dot :: ts
        else
          (parsePat rest).map fun ts => RTok.once RAtom.dot :: ts
      else none
    else
      if rest.head? = some '*' then
        (parsePat rest.tail).map fun ts => RTok.star (RAtom.lit c) :: ts
      else
        (parsePat rest).map fun ts => RTok.once (RAtom.lit c) :: ts
termination_by l => l.length
decreasing_by
  all_goals simp_all [List.length_tail]
  all_goals omega

/-- Case-insensitive atom match, the `$options: 'i'` flag. -/
def amatchI : RAtom → Char → Bool
  | RAtom.lit c, d => c.toLower = d.toLower
  | RAtom.dot, _ => true

/-- Match a token list against a prefix of the subject (standard
backtracking matcher; `star` tries the empty repetition first). -/
def matchHereI : List RTok → List Char → Bool
  | [], _ => true
  | RTok.once _ :: _, [] => false
  | RTok.once a :: ps, c :: cs => amatchI a c && matchHereI ps cs
  | RTok.star a :: ps, s =>
    matchHereI ps s ||
      match s with
      | [] => false
      | c :: cs => amatchI a c && matchHereI (RTok.star a :: ps) cs
termination_by ps s => (s.length, ps.length)

/-- An unanchored regex matches when it matches starting at any position. -/
def matchSomewhereI (ps : List RTok) : List Char → Bool
  | [] => matchHereI ps []
  | c :: cs => matchHereI ps (c :: cs) || matchSomewhereI ps cs

/-- Modelled from the spec: the store evaluating
`{source: {$regex: pat, $options: 'i'}}` against a subject string —
`none` when the pattern is outside the modelled fragment. -/
def mongoRegexIMatch (pat subj : String) : Option Bool :=
  (parsePat pat.toList).map fun ps => matchSomewhereI ps subj.toList

/-! ### JavaScript query parsing and falsy defaulting (C4, C5)

src/index.js lines 277-279. -/

/-- Whitespace stripped by JS `parseInt` before reading the number. -/
def isJsSpace (c : Char) : Bool :=
  c = ' ' || c = '\t' || c = '\n' || c = '\r' || c = '\x0b' || c = '\x0c'

/-- Hexadecimal digit, for both ObjectId syntax and `parseInt`'s 0x mode. -/
def isHexDigitChar (c : Char) : Bool :=
  c.isDigit || ('a' ≤ c && c ≤ 'f') || ('A' ≤ c && c ≤ 'F')

/-- Numeric value of a (hex) digit character. -/
def digitValue (c : Char) : Nat :=
  if c.isDigit then c.toNat - 48
  else if 'a' ≤ c && c ≤ 'f' then c.toNat - 87
  else if 'A' ≤ c && c ≤ 'F' then c.toNat - 55
  else 0

/-- Digit test for the radix `parseInt` chose (10, or 16 after `0x`). -/
def isDigitBase (base : Nat) (c : Char) : Bool :=
  if base = 16 then isHexDigitChar c else c.isDigit

/-- Modelled from JS semantics: `parseInt(s)` with no radix argument — skip
leading whitespace, read an optional sign, switch to base 16 after `0x`/`0X`,
then read the longest run of digits; `none` is NaN (no digits at all). -/
def jsParseIntList (cs0 : List Char) : Option Int :=
  let cs1 := cs0.dropWhile fun c => isJsSpace c
  let signed : Int × List Char :=
    match cs1 with
    | '-' :: rest => (-1, rest)
    | '+' :: rest => (1, rest)
    | _ => (1, cs1)
  let based : Nat × List Char :=
    match signed.2 with
    | '0' :: 'x' :: rest => (16, rest)
    | '0' :: 'X' :: rest => (16, rest)
    | _ => (10, signed.2)
  let ds := based.2.takeWhile (isDigitBase based.1)
  if ds.isEmpty then none
  else some (signed.1 * ds.foldl (fun acc c => acc * (based.1 : Int) + (digitValue c : Int)) 0)

/-- `parseInt(v)` on a query value that is either absent (NaN) or a string. -/
def jsParseInt (v : Option String) : Option Int :=
  match v with
  | none => none
  | some s => jsParseIntList s.toList

/-- JS `x || d` on the result of `parseInt`: NaN and 0 are falsy and give the
default. -/
def jsOrDefault (v : Option Int) (dflt : Int) : Int :=
  match v with
  | none => dflt
  | some n => if n = 0 then dflt else n

/-- `const page = Math.max(1, parseInt(req.query.page) || 1);` (line 277). -/
def quotesPage (pageRaw : Option String) : Int :=
  max 1 (jsOrDefault (jsParseInt pageRaw) 1)

/-- `const limit = Math.min(50, Math.max(1, parseInt(req.query.limit) || 10));`
(line 278). -/
def quotesLimit (limitRaw : Option String) : Int :=
  min 50 (max 1 (jsOrDefault (jsParseInt limitRaw) 10))

/-- `const skip = (page - 1) * limit;` (line 279). -/
def quotesSkip (pageRaw limitRaw : Option String) : Int :=
  (quotesPage pageRaw - 1) * quotesLimit limitRaw

/-! ### GET /api/quotes handler (src/index.js lines 276-297) -/

/-- The pagination block of the list endpoint's 200 response. -/
structure Pagination where
  currentPage : Int
  totalPages : Int
  totalItems : Nat
  itemsPerPage : Int
  hasNextPage : Bool
  hasPrevPage : Bool
deriving DecidableEq, Repr

/-- The (always 200) response of GET /api/quotes. -/
structure QuotesResp where
  status : Nat
  data : List JDoc
  pagination : Pagination
deriving DecidableEq, Repr

/-- GET /api/quotes: clamp page/limit, `find().select('-__v').skip(skip)
.limit(limit).lean()` over the store in enumeration order, `countDocuments()`
as `totalItems`, and the pagination block of lines 288-295 (`Math.ceil` of
the real quotient models `Math.ceil(total / limit)`). -/
def quotesHandler (store : List SRecord) (pageRaw limitRaw : Option String) : QuotesResp :=
  let page := quotesPage pageRaw
  let limit := quotesLimit limitRaw
  let skip := (page - 1) * limit
  let total := store.length
  { status := 200
    data := ((store.drop skip.toNat).take limit.toNat).map leanSelectNoV
    pagination :=
      { currentPage := page
        totalPages := ⌈((total : ℚ) / (limit : ℚ))⌉
        totalItems := total
        itemsPerPage := limit
        hasNextPage := decide (page * limit < (total : Int))
        hasPrevPage := decide (1 < page) } }

/-! ### GET /api/quote/random handler (src/index.js lines 185-199) -/

/-- Response shape shared by the random and by-id endpoints: an error body
`{success:false, error}` with its status, or a 200 envelope whose `data` is
the fetched document (`findOne` yields null — `none` — past the end). -/
inductive QuoteResp where
  | failure (status : Nat) (error : String)
  | success (status : Nat) (data : Option JDoc)
deriving DecidableEq, Repr

/-- `Math.floor(Math.random() * count)` (line 195), with `Math.random()`
modelled as a rational in `[0,1)`. -/
def randomOffset (count : Nat) (r : ℚ) : Nat :=
  (⌊r * (count : ℚ)⌋).toNat

/-- GET /api/quote/random: 404 on an empty store, else fetch the record at
the random offset with `findOne().skip(random).select('-__v').lean()`. -/
def randomHandler (store : List SRecord) (r : ℚ) : QuoteResp :=
  let count := store.length
  if count = 0 then QuoteResp.failure 404 "No quotes found in database"
  else QuoteResp.success 200 ((store[randomOffset count r]?).map leanSelectNoV)

/-! ### GET /api/quote/daily handler (src/index.js lines 202-225) -/

/-- `const oneDay = 1000 * 60 * 60 * 24;` (line 215). -/
def oneDayMs : Nat := 1000 * 60 * 60 * 24

/-- Gregorian leap-year rule. -/
def isLeapYear (y : Nat) : Bool :=
  (y % 4 = 0 && y % 100 ≠ 0) || y % 400 = 0

/-- Length of month `m` (1-12) in year `y`. -/
def daysInMonth (y m : Nat) : Nat :=
  if m = 2 then (if isLeapYear y then 29 else 28)
  else if m = 4 ∨ m = 6 ∨ m = 9 ∨ m = 11 then 30
  else 31

/-- The 1-based ordinal day of the date `(y, m, d)` within year `y`
(Jan 1 ↦ 1). -/
def dayOfYearOrdinal (y m d : Nat) : Nat :=
  (List.range (m - 1)).foldl (fun acc i => acc + daysInMonth y (i + 1)) 0 + d

/-- Modelled from JS `Date` semantics (fixed-offset local time): the
millisecond timestamp of ordinal day `ord` of a year whose Jan 1, 00:00 local
is at timestamp `yearStart`, with `msInDay` milliseconds since local
midnight. -/
def dateMs (yearStart : Int) (ord : Nat) (msInDay : Nat) : Int :=
  yearStart + ((ord : Int) - 1) * (oneDayMs : Int) + (msInDay : Int)

/-- `new Date(now.getFullYear(), 0, 0)` (line 213): day 0 of January
normalizes to the day before Jan 1. -/
def jan0Ms (yearStart : Int) : Int :=
  yearStart - (oneDayMs : Int)

/-- `Math.floor(diff / oneDay)` (lines 214-216): floor division of the
timestamp difference. -/
def codeDayOfYear (nowMs startMs : Int) : Int :=
  (nowMs - startMs).fdiv (oneDayMs : Int)

/-- The 200 response of the daily endpoint carries the record and the
computed `dayOfYear` (lines 221-224). -/
inductive DailyResp where
  | failure (status : Nat) (error : String)
  | success (status : Nat) (data : Option JDoc) (dayOfYear : Int)
deriving DecidableEq, Repr

/-- GET /api/quote/daily: 404 on an empty store, else compute `dayOfYear`
from the current date, take `index = dayOfYear % count` (JS `%` is the
truncating remainder, `Int.tmod`) and fetch the record at that offset. The
current instant is the date `(y, m, d)` at `msInDay` since local midnight in
a year starting at timestamp `yearStart`. -/
def dailyHandler (store : List SRecord) (yearStart : Int) (y m d msInDay : Nat) : DailyResp :=
  let count := store.length
  if count = 0 then DailyResp.failure 404 "No quotes found in database"
  else
    let nowMs := dateMs yearStart (dayOfYearOrdinal y m d) msInDay
    let doy := codeDayOfYear nowMs (jan0Ms yearStart)
    let index := doy.tmod (count : Int)
    DailyResp.success 200 ((store[index.toNat]?).map leanSelectNoV) doy

/-! ### GET /api/quote/:id handler (src/index.js lines 228-249) -/

/-- Modelled from mongoose semantics: `mongoose.Types.ObjectId.isValid(id)`
on a string — a 24-character hexadecimal string, or any string whose UTF-8
byte length is 12 (taken as raw 12-byte ids). -/
def objectIdIsValid (s : String) : Bool :=
  (s.length = 24 && s.toList.all isHexDigitChar) || s.utf8ByteSize = 12

/-- GET /api/quote/:id: reject malformed ids with 400 before touching the
store; then `findById(id).select('-__v').lean()`, 404 when null. -/
def byIdHandler (store : List SRecord) (id : String) : QuoteResp :=
  if ¬ objectIdIsValid id then QuoteResp.failure 400 "Invalid quote ID format"
  else
    match store.find? fun r => r.mongoId = id with
    | none => QuoteResp.failure 404 "Quote not found"
    | some r => QuoteResp.success 200 (some (leanSelectNoV r))

/-! ### GET /api/quotes/search handler (src/index.js lines 252-273) -/

/-- A query-string value as express delivers it: absent, a single string, or
an array (repeated parameter). -/
inductive QueryVal where
  | undef
  | str (s : String)
  | arr (l : List String)
deriving DecidableEq, Repr

/-- The search endpoint's response: an error body with its status, or the
200 envelope `{count, data}` of lines 269-272. -/
inductive SearchResp where
  | failure (status : Nat) (error : String)
  | success (status : Nat) (count : Nat) (data : List JDoc)
deriving DecidableEq, Repr

/-- A record satisfies `{source: {$regex: ps, $options:'i'}}`: its `source`
field exists and matches the pattern somewhere, case-insensitively. -/
def recordSourceMatches (ps : List RTok) (r : SRecord) : Bool :=
  match r.source with
  | none => false
  | some src => matchSomewhereI ps src.toList

/-- GET /api/quotes/search: `if (!source || typeof source !== 'string')`
rejects an absent value, an array, and the falsy empty string with 400;
otherwise escape the source, run the regex query with `.limit(50)`, and
answer 200 with the match count and documents. -/
def searchHandler (store : List SRecord) (source : QueryVal) : SearchResp :=
  match source with
  | QueryVal.str s =>
    if s = "" then SearchResp.failure 400 "Source query parameter is required"
    else
      let ps := (parsePat (escapeRegexList s.toList)).getD []
      let results := (store.filter (recordSourceMatches ps)).take 50
      SearchResp.success 200 results.length (results.map leanSelectNoV)
  | _ => SearchResp.failure 400 "Source query parameter is required"

/-- `source.replace(...)` at the string level: the `sanitizedSource` of
src/index.js line 263. -/
def escapeRegexStr (s : String) : String :=
  String.mk (escapeRegexList s.toList)

/-! ### Theorems -/

/-- The token list a purely literal pattern parses to. -/
def litToks (s : List Char) : List RTok :=
  s.map fun c => RTok.once (RAtom.lit c)

theorem escape_head_ne_star (cs : List Char) :
    (escapeRegexList cs).head? ≠ some '*' := by
  cases cs with
  | nil => simp [escapeRegexList]
  | cons c cs =>
    by_cases h : c ∈ regexMetachars
    · simp [escapeRegexList, h]
    · simp only [escapeRegexList, if_neg h, List.head?_cons, ne_eq, Option.some.injEq]
      rintro rfl
      exact h (by simp [regexMetachars])

theorem backslash_mem_metachars : '\\' ∈ regexMetachars := by
  simp [regexMetachars]

theorem parse_escape (cs : List Char) :
    parsePat (escapeRegexList cs) = some (litToks cs) := by
  induction cs with
  | nil => simp [escapeRegexList, parsePat, litToks]
  | cons c cs ih =>
    have hstar := escape_head_ne_star cs
    by_cases h : c ∈ regexMetachars
    · rw [escapeRegexList, if_pos h, parsePat.eq_def]
      simp [hstar, ih, litToks]
    · have hc : c ≠ '\\' := fun hc => h (hc ▸ backslash_mem_metachars)
      rw [escapeRegexList, if_neg h, parsePat.eq_def]
      simp [hstar, hc, h, ih, litToks]

theorem matchHere_litToks (s : List Char) :
    ∀ t, matchHereI (litToks s) t = true ↔
      s.map Char.toLower <+: t.map Char.toLower := by
  induction s with
  | nil => intro t; simp [litToks, matchHereI]
  | cons c cs ih =>
    intro t
    cases t with
    | nil => simp [litToks, matchHereI]
    | cons d ds =>
      simp only [litToks, List.map_cons, matchHereI, Bool.and_eq_true, amatchI,
        decide_eq_true_eq, List.cons_prefix_cons]
      constructor
      · rintro ⟨h1, h2⟩; exact ⟨h1, (ih ds).mp h2⟩
      · rintro ⟨h1, h2⟩; exact ⟨h1, (ih ds).mpr h2⟩

theorem matchSomewhere_litToks (s : List Char) :
    ∀ t, matchSomewhereI (litToks s) t = true ↔
      s.map Char.toLower <:+: t.map Char.toLower := by
  intro t
  induction t with
  | nil => simp [matchSomewhereI, matchHere_litToks, List.infix_nil, List.prefix_nil]
  | cons d ds ih =>
    rw [List.map_cons, List.infix_cons_iff, ← List.map_cons]
    simp only [matchSomewhereI, Bool.or_eq_true, matchHere_litToks, ih]

/-- C1: the sanitization of `source` (src/index.js line 263) prepends a
backslash to every occurrence of each regex metacharacter — the escaped
string is exactly the character-by-character expansion that doubles
metacharacters with a leading backslash — and the resulting pattern, run
case-insensitively, matches a subject exactly when the original `source`
string occurs literally (case-insensitively) as a contiguous substring: it
is never interpreted as a regex pattern. -/
theorem search_sanitization_matches_literal (s t : String) :
    escapeRegexList s.toList =
      s.toList.flatMap (fun c => if c ∈ regexMetachars then ['\\', c] else [c]) ∧
    mongoRegexIMatch (escapeRegexStr s) t =
      some (decide (s.toList.map Char.toLower <:+: t.toList.map Char.toLower)) := by
  constructor
  · induction s.toList with
    | nil => simp [escapeRegexList]
    | cons c cs ih =>
      by_cases h : c ∈ regexMetachars <;> simp [escapeRegexList, h, ih]
  · have hl : (escapeRegexStr s).toList = escapeRegexList s.toList := rfl
    rw [mongoRegexIMatch, hl, parse_escape, Option.map_some', Option.some.injEq]
    rw [Bool.eq_iff_iff]
    simp [matchSomewhere_litToks]

/-! ### Concrete store used by the witness theorems -/

/-- A concrete stored record for witnesses. -/
def sampleRecord : SRecord :=
  { mongoId := "507f1f77bcf86cd799439011"
    version := 0
    sloka := "karmany evadhikaras te"
    translation := some "You have a right to perform your duty"
    transliteration := none
    source := some "Bhagavad Gita"
    createdAt := "2024-01-01T00:00:00.000Z"
    updatedAt := "2024-01-01T00:00:00.000Z" }

/-- A second concrete stored record for witnesses. -/
def sampleRecord2 : SRecord :=
  { mongoId := "507f1f77bcf86cd799439012"
    version := 0
    sloka := "asato ma sad gamaya"
    translation := some "From the unreal lead me to the real"
    transliteration := none
    source := some "Brihadaranyaka Upanishad"
    createdAt := "2024-01-01T00:00:00.000Z"
    updatedAt := "2024-01-01T00:00:00.000Z" }

/-- A concrete two-record store for witnesses. -/
def sampleStore : List SRecord := [sampleRecord, sampleRecord2]

/-- C2: GET /api/quote/random answers 404 with
`{success:false, error:"No quotes found in database"}` on an empty store
(before any offset enters the computation), and on a non-empty store the
offset `Math.floor(random * count)` lies in `[0, count)` for every
`random ∈ [0,1)`, so the handler answers 200 with the record that the store
holds at exactly that offset. -/
theorem random_endpoint_ok (store : List SRecord) (r : ℚ)
    (h0 : 0 ≤ r) (h1 : r < 1) :
    (store.length = 0 → randomHandler store r =
      QuoteResp.failure 404 "No quotes found in database") ∧
    (0 < store.length →
      randomOffset store.length r < store.length ∧
      randomHandler store r =
        QuoteResp.success 200 ((store[randomOffset store.length r]?).map leanSelectNoV) ∧
      (store[randomOffset store.length r]?).isSome = true) := by
  constructor
  · intro h; simp [randomHandler, h]
  · intro hpos
    have hoff : randomOffset store.length r < store.length := by
      have hmul : r * (store.length : ℚ) < (store.length : ℚ) :=
        mul_lt_of_lt_one_left (by exact_mod_cast hpos) h1
      have hfl : ⌊r * (store.length : ℚ)⌋ < (store.length : ℤ) := by
        rw [Int.floor_lt]; exact_mod_cast hmul
      have hfl0 : 0 ≤ ⌊r * (store.length : ℚ)⌋ :=
        Int.floor_nonneg.mpr (mul_nonneg h0 (by positivity))
      unfold randomOffset
      omega
    refine ⟨hoff, ?_, ?_⟩
    · simp [randomHandler, Nat.pos_iff_ne_zero.mp hpos]
    · simp [List.getElem?_eq_getElem hoff]

/-- Witness for C2 at a two-record store and random value 1/2. -/
theorem random_endpoint_ok_witness :
    (sampleStore.length = 0 → randomHandler sampleStore (1/2) =
      QuoteResp.failure 404 "No quotes found in database") ∧
    (0 < sampleStore.length →
      randomOffset sampleStore.length (1/2) < sampleStore.length ∧
      randomHandler sampleStore (1/2) =
        QuoteResp.success 200
          ((sampleStore[randomOffset sampleStore.length (1/2)]?).map leanSelectNoV) ∧
      (sampleStore[randomOffset sampleStore.length (1/2)]?).isSome = true) :=
  random_endpoint_ok sampleStore (1/2) (by norm_num) (by norm_num)

/-- The code's day-of-year computation (src/index.js lines 212-216) yields
exactly the 1-based ordinal day: the Jan-0 epoch is one day before Jan 1,
so the floored millisecond quotient equals the ordinal for any time of
day. -/
theorem codeDayOfYear_eq_ordinal (yearStart : Int) (ord msInDay : Nat)
    (hms : msInDay < oneDayMs) :
    codeDayOfYear (dateMs yearStart ord msInDay) (jan0Ms yearStart) = (ord : Int) := by
  unfold codeDayOfYear dateMs jan0Ms
  rw [Int.fdiv_eq_ediv _ (by norm_num [oneDayMs])]
  simp only [oneDayMs] at hms ⊢
  omega

/-- On a non-empty store the daily handler's response is fully determined
by the ordinal day and the store: data at offset `dayOfYear % count` and
the ordinal as `dayOfYear`. -/
theorem dailyHandler_eq (store : List SRecord) (yearStart : Int) (y m d msInDay : Nat)
    (hms : msInDay < oneDayMs) (hc : store.length ≠ 0) :
    dailyHandler store yearStart y m d msInDay =
      DailyResp.success 200
        ((store[dayOfYearOrdinal y m d % store.length]?).map leanSelectNoV)
        (dayOfYearOrdinal y m d) := by
  unfold dailyHandler
  rw [if_neg hc]
  have hdoy := codeDayOfYear_eq_ordinal yearStart (dayOfYearOrdinal y m d) msInDay hms
  have htm : ((dayOfYearOrdinal y m d : Int).tmod (store.length : Int)).toNat =
      dayOfYearOrdinal y m d % store.length := by
    rw [Int.tmod_eq_emod (by positivity) (by positivity), ← Int.natCast_mod]
    exact Int.toNat_natCast _
  simp only [hdoy, htm]

/-- C3: GET /api/quote/daily with a non-empty store selects offset
`dayOfYear % count` where `dayOfYear` is the 1-based ordinal day of the
current date (day 1 = Jan 1, epoch Jan 0 of the same year); the 200
response carries the computed `dayOfYear` alongside the record at that
offset; the result is a pure function of (date, count) — the same calendar
date gives the same response at any time of day and for any year-start
epoch; and an empty store yields 404. -/
theorem daily_endpoint_ok (store : List SRecord) (yearStart yearStart' : Int)
    (y m d msInDay msInDay' : Nat)
    (hms : msInDay < oneDayMs) (hms' : msInDay' < oneDayMs) :
    (store.length = 0 → dailyHandler store yearStart y m d msInDay =
      DailyResp.failure 404 "No quotes found in database") ∧
    (0 < store.length →
      dailyHandler store yearStart y m d msInDay =
        DailyResp.success 200
          ((store[dayOfYearOrdinal y m d % store.length]?).map leanSelectNoV)
          (dayOfYearOrdinal y m d)) ∧
    dailyHandler store yearStart' y m d msInDay' =
      dailyHandler store yearStart y m d msInDay := by
  refine ⟨fun h => by simp [dailyHandler, h], fun hpos => ?_, ?_⟩
  · exact dailyHandler_eq store yearStart y m d msInDay hms (Nat.pos_iff_ne_zero.mp hpos)
  · by_cases hc : store.length = 0
    · simp [dailyHandler, hc]
    · rw [dailyHandler_eq store yearStart y m d msInDay hms hc,
        dailyHandler_eq store yearStart' y m d msInDay' hms' hc]

/-- Witness for C3: March 1, 2025 (ordinal day 60) at two times of day over
the two-record store; dayOfYear 60, offset 60 % 2 = 0. -/
theorem daily_endpoint_ok_witness :
    (sampleStore.length = 0 → dailyHandler sampleStore 1735689600000 2025 3 1 0 =
      DailyResp.failure 404 "No quotes found in database") ∧
    (0 < sampleStore.length →
      dailyHandler sampleStore 1735689600000 2025 3 1 0 =
        DailyResp.success 200
          ((sampleStore[dayOfYearOrdinal 2025 3 1 % sampleStore.length]?).map leanSelectNoV)
          (dayOfYearOrdinal 2025 3 1)) ∧
    dailyHandler sampleStore 1735689600000 2025 3 1 43200000 =
      dailyHandler sampleStore 1735689600000 2025 3 1 0 :=
  daily_endpoint_ok sampleStore 1735689600000 1735689600000 2025 3 1 0 43200000
    (by norm_num [oneDayMs]) (by norm_num [oneDayMs])

/-- C4: for every pair of raw `page`/`limit` query values (absent, malformed
or numeric strings) the computed page is at least 1, the computed limit is
clamped into `[1, 50]`, `skip = (page - 1) * limit`, the computations follow
exactly `max(1, parseInt(page) || 1)` and `min(50, max(1, parseInt(limit) ||
10))`, and unparsable input falls back to the defaults (page 1, limit 10);
the functions are total, so the computation never raises. -/
theorem quotes_params_clamped (pageRaw limitRaw : Option String) :
    1 ≤ quotesPage pageRaw ∧
    1 ≤ quotesLimit limitRaw ∧ quotesLimit limitRaw ≤ 50 ∧
    quotesSkip pageRaw limitRaw = (quotesPage pageRaw - 1) * quotesLimit limitRaw ∧
    quotesPage pageRaw = max 1 (jsOrDefault (jsParseInt pageRaw) 1) ∧
    quotesLimit limitRaw = min 50 (max 1 (jsOrDefault (jsParseInt limitRaw) 10)) ∧
    (jsParseInt pageRaw = none → quotesPage pageRaw = 1) ∧
    (jsParseInt limitRaw = none → quotesLimit limitRaw = 10) := by
  refine ⟨le_max_left 1 _, le_min (by norm_num) (le_max_left 1 _),
    min_le_left _ _, rfl, rfl, rfl, ?_, ?_⟩
  · intro h; simp [quotesPage, h, jsOrDefault]
  · intro h; simp [quotesLimit, h, jsOrDefault]

/-- Witness for C4 at a malformed page, an overlarge limit and a numeric
pair. -/
theorem quotes_params_clamped_witness :
    1 ≤ quotesPage (some "abc") ∧
    1 ≤ quotesLimit (some "999") ∧ quotesLimit (some "999") ≤ 50 ∧
    quotesPage (some "abc") = 1 ∧
    quotesSkip (some "3") (some "7") = (quotesPage (some "3") - 1) * quotesLimit (some "7") :=
  ⟨(quotes_params_clamped (some "abc") (some "999")).1,
   (quotes_params_clamped (some "abc") (some "999")).2.1,
   (quotes_params_clamped (some "abc") (some "999")).2.2.1,
   (quotes_params_clamped (some "abc") (some "999")).2.2.2.2.2.2.1 (by decide),
   (quotes_params_clamped (some "3") (some "7")).2.2.2.1⟩

/-- `Math.ceil(total / limit)` over real division agrees with the natural
rounding-up division `(total + limit - 1) / limit`. -/
theorem ceil_cast_div_eq (a b : Nat) (hb : 0 < b) :
    ⌈(a : ℚ) / (b : ℚ)⌉ = (((a + b - 1) / b : Nat) : Int) := by
  have hq := Nat.div_add_mod (a + b - 1) b
  have hr : (a + b - 1) % b < b := Nat.mod_lt _ hb
  set q := (a + b - 1) / b with hqd
  set rr := (a + b - 1) % b with hrd
  have hkey : a ≤ b * q ∧ b * q < a + b := by
    generalize b * q = p at hq ⊢
    omega
  have hbq : (0 : ℚ) < (b : ℚ) := by exact_mod_cast hb
  rw [Int.ceil_eq_iff]
  constructor
  · rw [lt_div_iff₀ hbq]
    have h2 : ((b : ℚ)) * q < a + b := by exact_mod_cast hkey.2
    push_cast
    linarith
  · rw [div_le_iff₀ hbq]
    have h1 : ((a : ℚ)) ≤ b * q := by exact_mod_cast hkey.1
    push_cast
    linarith

/-- C5: the pagination block of every GET /api/quotes 200 response
satisfies `itemsPerPage = clamp(limit, 1, 50)` (limit parsed with default
10), `currentPage = page`, `totalItems = count`, `totalPages =
ceil(totalItems / itemsPerPage)` (equal to the rounding-up integer
division), `hasNextPage ↔ page * itemsPerPage < totalItems` and
`hasPrevPage ↔ page > 1` — for every store and all raw query values. -/
theorem quotes_pagination_envelope (store : List SRecord) (pageRaw limitRaw : Option String) :
    (quotesHandler store pageRaw limitRaw).status = 200 ∧
    (quotesHandler store pageRaw limitRaw).pagination.itemsPerPage =
      min 50 (max 1 (jsOrDefault (jsParseInt limitRaw) 10)) ∧
    (quotesHandler store pageRaw limitRaw).pagination.currentPage = quotesPage pageRaw ∧
    (quotesHandler store pageRaw limitRaw).pagination.totalItems = store.length ∧
    (quotesHandler store pageRaw limitRaw).pagination.totalPages =
      (((store.length + (quotesLimit limitRaw).toNat - 1) / (quotesLimit limitRaw).toNat : Nat) : Int) ∧
    ((quotesHandler store pageRaw limitRaw).pagination.hasNextPage = true ↔
      quotesPage pageRaw * quotesLimit limitRaw < (store.length : Int)) ∧
    ((quotesHandler store pageRaw limitRaw).pagination.hasPrevPage = true ↔
      1 < quotesPage pageRaw) := by
  have hl1 : 1 ≤ quotesLimit limitRaw := le_min (by norm_num) (le_max_left 1 _)
  have hlt : (0 : ℕ) < (quotesLimit limitRaw).toNat := by omega
  have hcast : ((quotesLimit limitRaw : ℚ)) = (((quotesLimit limitRaw).toNat : ℕ) : ℚ) := by
    have h := Int.toNat_of_nonneg (by omega : (0 : ℤ) ≤ quotesLimit limitRaw)
    exact_mod_cast h.symm
  refine ⟨rfl, rfl, rfl, rfl, ?_, ?_, ?_⟩
  · show ⌈((store.length : ℚ) / ((quotesLimit limitRaw : ℤ) : ℚ))⌉ = _
    rw [hcast, ceil_cast_div_eq store.length (quotesLimit limitRaw).toNat hlt]
  · simp [quotesHandler]
  · simp [quotesHandler]

/-- C6: GET /api/quote/:id — a syntactically invalid store identifier gets
400 (never 500 or 404), and the handler's answer for such an id is the same
for every store, so the validity check precedes any store query; a
well-formed id matching no record gets 404; a matching id gets 200 with the
record. -/
theorem by_id_endpoint_taxonomy (store : List SRecord) (id : String) :
    (objectIdIsValid id = false →
      byIdHandler store id = QuoteResp.failure 400 "Invalid quote ID format" ∧
      byIdHandler store id = byIdHandler [] id) ∧
    (objectIdIsValid id = true → store.find? (fun r => r.mongoId = id) = none →
      byIdHandler store id = QuoteResp.failure 404 "Quote not found") ∧
    (objectIdIsValid id = true →
      (store.find? (fun r => r.mongoId = id)).isSome = true →
      byIdHandler store id =
        QuoteResp.success 200 ((store.find? (fun r => r.mongoId = id)).map leanSelectNoV)) := by
  refine ⟨fun hv => ?_, fun hv hn => ?_, fun hv hs => ?_⟩
  · constructor <;> simp [byIdHandler, hv]
  · simp [byIdHandler, hv, hn]
  · rcases Option.isSome_iff_exists.mp hs with ⟨r, hr⟩
    simp [byIdHandler, hv, hr]

/-- Witness for C6: the malformed id "123" gets 400, an absent 24-hex id
gets 404, and the stored id gets 200 with its document. -/
theorem by_id_endpoint_taxonomy_witness :
    byIdHandler sampleStore "123" = QuoteResp.failure 400 "Invalid quote ID format" ∧
    byIdHandler sampleStore "ffffffffffffffffffffffff" = QuoteResp.failure 404 "Quote not found" ∧
    byIdHandler sampleStore "507f1f77bcf86cd799439011" =
      QuoteResp.success 200
        ((sampleStore.find? (fun r => r.mongoId = "507f1f77bcf86cd799439011")).map leanSelectNoV) :=
  ⟨((by_id_endpoint_taxonomy sampleStore "123").1 (by decide)).1,
   (by_id_endpoint_taxonomy sampleStore "ffffffffffffffffffffffff").2.1 (by decide) (by decide),
   (by_id_endpoint_taxonomy sampleStore "507f1f77bcf86cd799439011").2.2 (by decide) (by decide)⟩

/-- Status of a search response. -/
def SearchResp.statusOf : SearchResp → Nat
  | SearchResp.failure st _ => st
  | SearchResp.success st _ _ => st

/-- The `count` field of a search response (0 on errors). -/
def SearchResp.countOf : SearchResp → Nat
  | SearchResp.failure _ _ => 0
  | SearchResp.success _ n _ => n

/-- Length of the `data` array of a search response (0 on errors). -/
def SearchResp.dataLength : SearchResp → Nat
  | SearchResp.failure _ _ => 0
  | SearchResp.success _ _ ds => ds.length

/-- C7 refutation at a concrete input: the claim says every present string
value of `source` yields a 200 response, but for the present string value
`""` the handler answers 400 (the empty string is falsy in
`if (!source || ...)`). -/
theorem search_empty_string_rejected_cex :
    searchHandler sampleStore (QueryVal.str "") =
      SearchResp.failure 400 "Source query parameter is required" := rfl

/-- C7 (amended): a missing or non-string `source` gets 400; every
NON-EMPTY string value gets a 200 response carrying a `count` field and the
(possibly empty) matching array — an empty result is still a 200 success —
and the array never holds more than 50 records. -/
theorem search_endpoint_taxonomy (store : List SRecord) (s : String) (l : List String)
    (hs : s ≠ "") :
    searchHandler store QueryVal.undef =
      SearchResp.failure 400 "Source query parameter is required" ∧
    searchHandler store (QueryVal.arr l) =
      SearchResp.failure 400 "Source query parameter is required" ∧
    (searchHandler store (QueryVal.str s)).statusOf = 200 ∧
    (searchHandler store (QueryVal.str s)).countOf =
      (searchHandler store (QueryVal.str s)).dataLength ∧
    (searchHandler store (QueryVal.str s)).dataLength ≤ 50 := by
  refine ⟨rfl, rfl, ?_, ?_, ?_⟩ <;>
    simp [searchHandler, hs, SearchResp.statusOf, SearchResp.countOf, SearchResp.dataLength]

/-- Witness for C7 at the two-record store and the non-empty source
"gita". -/
theorem search_endpoint_taxonomy_witness :
    "gita" ≠ "" ∧
    searchHandler sampleStore QueryVal.undef =
      SearchResp.failure 400 "Source query parameter is required" ∧
    (searchHandler sampleStore (QueryVal.str "gita")).statusOf = 200 ∧
    (searchHandler sampleStore (QueryVal.str "gita")).countOf =
      (searchHandler sampleStore (QueryVal.str "gita")).dataLength ∧
    (searchHandler sampleStore (QueryVal.str "gita")).dataLength ≤ 50 := by
  have h := search_endpoint_taxonomy sampleStore "gita" [] (by decide)
  exact ⟨by decide, h.1, h.2.2.1, h.2.2.2.1, h.2.2.2.2⟩

/-- C8: every read endpoint serializes `.lean()` documents, which bypass
the QuoteSchema `toJSON` transform — so the returned record, while it does
omit the internal `__v` versioning field (via `select('-__v')`), exposes
the raw `_id` key and has NO public `id` field, contradicting the claim;
the schema's own transform (which `.lean()` skips) would have produced
`id`. -/
theorem read_endpoints_expose_raw_id :
    randomHandler [sampleRecord] 0 =
      QuoteResp.success 200 (some (leanSelectNoV sampleRecord)) ∧
    (leanSelectNoV sampleRecord).lookup "__v" = none ∧
    (leanSelectNoV sampleRecord).lookup "id" = none ∧
    (leanSelectNoV sampleRecord).lookup "_id" = some (JVal.s "507f1f77bcf86cd799439011") ∧
    (toJSONTransform (fullDoc sampleRecord)).lookup "id" =
      some (JVal.s "507f1f77bcf86cd799439011") ∧
    (toJSONTransform (fullDoc sampleRecord)).lookup "_id" = none := by
  refine ⟨?_, by decide, by decide, by decide, by decide, by decide⟩
  have hoff : randomOffset 1 0 = 0 := by
    unfold randomOffset
    norm_num
  simp [randomHandler, hoff]

/-- C9: a present but empty `source` string is rejected with 400 and the
exact error body `Source query parameter is required`; the outcome is the
same for every store (in particular the empty one), so no store query is
involved. -/
theorem search_empty_source_400 (store : List SRecord) :
    searchHandler store (QueryVal.str "") =
      SearchResp.failure 400 "Source query parameter is required" ∧
    searchHandler store (QueryVal.str "") = searchHandler [] (QueryVal.str "") :=
  ⟨rfl, rfl⟩

/-- C10: in every 200 search response the `count` field equals the length
of the returned `data` array, and that length is at most 50. -/
theorem search_count_eq_data_length (store : List SRecord) (s : String) (hs : s ≠ "") :
    (searchHandler store (QueryVal.str s)).countOf =
      (searchHandler store (QueryVal.str s)).dataLength ∧
    (searchHandler store (QueryVal.str s)).dataLength ≤ 50 := by
  constructor <;>
    simp [searchHandler, hs, SearchResp.countOf, SearchResp.dataLength]

/-- Witness for C10 at the two-record store and the source "veda". -/
theorem search_count_eq_data_length_witness :
    (searchHandler sampleStore (QueryVal.str "veda")).countOf =
      (searchHandler sampleStore (QueryVal.str "veda")).dataLength ∧
    (searchHandler sampleStore (QueryVal.str "veda")).dataLength ≤ 50 :=
  search_count_eq_data_length sampleStore "veda" (by decide)

end SlokaApi
